import Mathlib

/-!
Verification of the retail-store inventory ledger (`src/main.py`).

The ledger core is embedded shallowly:

* `datetime` values become `Int`s counting microseconds since an epoch, so
  that Python's `timedelta.days` (floor of the difference in days) becomes
  `Int.fdiv` by `usPerDay`, and `timedelta(days = k)` becomes `k * usPerDay`.
* The mutating methods of `StoreItem` become pure functions that return the
  created `Transaction` together with the updated item; `datetime.now()` and
  `uuid.uuid4()` become explicit parameters.
* `purchase` returns `Except String _` mirroring the `ValueError` raised on
  insufficient inventory.
* The random choices of the store factory (`random.randint`) become explicit
  integer parameters, constrained by hypotheses to the ranges `randint` draws
  from.
-/

/-- Microseconds in a day. -/
def usPerDay : Int := 86400000000

/-- `timedelta(days = d)` as a duration in microseconds. -/
def timedeltaDays (d : Int) : Int := d * usPerDay

/-- `(a - b).days`: the difference floored to whole days, as Python's
`timedelta.days` floors toward negative infinity. -/
def daysBetween (a b : Int) : Int := Int.fdiv (a - b) usPerDay

/-- `ShelfTracking` dataclass. -/
structure ShelfTracking where
  date_received : Int
  date_displayed : Int
deriving DecidableEq

/-- `Transaction` dataclass. -/
structure Transaction where
  transaction_id : String
  storeitem_name : String
  location : String
  quantity_change : Int
  timestamp : Int
  transaction_type : String
deriving DecidableEq

/-- `StoreItem` dataclass (the field `_sold_durations` is written without the
leading underscore). -/
structure StoreItem where
  name : String
  upc : String
  quantity : Int
  category : String
  location : String
  shelf_tracking : ShelfTracking
  transactions : List Transaction := []
  sold_durations : List Int := []
deriving DecidableEq

namespace StoreItem

/-- `StoreItem._record_transaction`: build a transaction, append it to the
item's log and return it. `uuid` and `now` stand for `uuid.uuid4()` and
`datetime.now()`. -/
def record_transaction (item : StoreItem) (uuid : String) (now : Int)
    (qty_change : Int) (transaction_type : String) : Transaction × StoreItem :=
  let txn : Transaction :=
    { transaction_id := uuid
      storeitem_name := item.name
      location := item.location
      quantity_change := qty_change
      timestamp := now
      transaction_type := transaction_type }
  (txn, { item with transactions := item.transactions ++ [txn] })

/-- `StoreItem.purchase`: fails when `qty > quantity`; otherwise appends `qty`
copies of `max 0 (now - date_displayed).days` to `sold_durations`, decrements
`quantity` and records a `"purchase"` transaction of `-qty`.
`List.replicate qty.toNat` models `for _ in range(qty)`. -/
def purchase (item : StoreItem) (uuid : String) (now : Int) (qty : Int) :
    Except String (Transaction × StoreItem) :=
  if qty > item.quantity then
    .error "Not enough inventory to purchase"
  else
    let days_on_shelf : Int := max 0 (daysBetween now item.shelf_tracking.date_displayed)
    let item' : StoreItem :=
      { item with
          sold_durations := item.sold_durations ++ List.replicate qty.toNat days_on_shelf
          quantity := item.quantity - qty }
    .ok (item'.record_transaction uuid now (-qty) "purchase")

/-- `l` after popping its last element `n` times (`list.pop()` in a loop);
popping an empty list is a no-op here, but the source never does that. -/
def popLastN (l : List Int) : Nat → List Int
  | 0 => l
  | n + 1 => popLastN l.dropLast n

/-- `StoreItem.return_item`: pops `min qty (len sold_durations)` entries off
the end of `sold_durations`, increments `quantity` by `qty` and records a
`"return"` transaction of `+qty`. -/
def return_item (item : StoreItem) (uuid : String) (now : Int) (qty : Int) :
    Transaction × StoreItem :=
  let item' : StoreItem :=
    { item with
        sold_durations := popLastN item.sold_durations
          (min qty.toNat item.sold_durations.length)
        quantity := item.quantity + qty }
  item'.record_transaction uuid now qty "return"

/-- `StoreItem.replenish`: increments `quantity` by `qty` and records a
`"replenish"` transaction of `+qty`. -/
def replenish (item : StoreItem) (uuid : String) (now : Int) (qty : Int) :
    Transaction × StoreItem :=
  let item' : StoreItem := { item with quantity := item.quantity + qty }
  item'.record_transaction uuid now qty "replenish"

/-- The "Simulate Day Passing" action applied to one item:
`shelf_tracking.date_displayed -= timedelta(days=1)`. -/
def advance_day (item : StoreItem) : StoreItem :=
  { item with
      shelf_tracking :=
        { item.shelf_tracking with
            date_displayed := item.shelf_tracking.date_displayed - timedeltaDays 1 } }

/-- `StoreItem.average_days_to_sell`: `statistics.mean(_sold_durations)` when
nonempty, else `0`; the exact rational mean. -/
def average_days_to_sell (item : StoreItem) : Rat :=
  if item.sold_durations = [] then 0
  else ((item.sold_durations.sum : Int) : Rat) / (item.sold_durations.length : Rat)

end StoreItem

/-- Gross purchase volume of one item: `sum(-t.quantity_change ...)` over its
`"purchase"` transactions. -/
def grossPurchases (item : StoreItem) : Int :=
  ((item.transactions.filter (fun t => t.transaction_type = "purchase")).map
    (fun t => -t.quantity_change)).sum

/-- Gross return volume of one item: `sum(t.quantity_change ...)` over its
`"return"` transactions. -/
def grossReturns (item : StoreItem) : Int :=
  ((item.transactions.filter (fun t => t.transaction_type = "return")).map
    (fun t => t.quantity_change)).sum

/-- The `total_units_sold` aggregate of the dashboard. -/
def total_units_sold (items : List StoreItem) : Int :=
  (items.map grossPurchases).sum - (items.map grossReturns).sum

/-- The key used by `best_location`: gross purchase volume of all items at a
location. -/
def locationPurchaseVolume (items : List StoreItem) (loc : String) : Int :=
  ((items.filter (fun i => i.location = loc)).map grossPurchases).sum

/-- Python's `max(iterable, key=key)` over a list: keeps the first element,
replacing it only when a strictly larger key appears. -/
def maxByKey (key : String → Int) : List String → Option String
  | [] => none
  | x :: xs => some (xs.foldl (fun best y => if key y > key best then y else best) x)

/-- The `best_location` aggregate, parametrised by `locs`, the enumeration
order in which Python happens to iterate `set(i.location for i in items)`. -/
def best_location (locs : List String) (items : List StoreItem) : Option String :=
  maxByKey (locationPurchaseVolume items) locs

/-- `random_shelf_tracking`, with the two `random.randint` draws
(`days_received ∈ [8,12]`, `days_displayed ∈ [1, days_received]`) made
explicit parameters. -/
def random_shelf_tracking (now : Int) (days_received days_displayed : Int) :
    ShelfTracking :=
  { date_received := now - timedeltaDays days_received
    date_displayed := now - timedeltaDays days_displayed }

/-- The per-item `randint` ranges used by `generate_store` to simulate the
initial sales. -/
def seedRanges : List (Int × Int) := [(10, 15), (6, 10), (5, 9), (4, 8), (1, 5)]

/-- The five freshly constructed items of `generate_store`, before the
simulated sales; `rᵢ`/`dᵢ` are the `random_shelf_tracking` draws of item
`i` (days since receipt, days since display). -/
def initialItems (now : Int)
    (r0 d0 r1 d1 r2 d2 r3 d3 r4 d4 : Int) : List StoreItem :=
  [ { name := "Baby Yoda Keychain", upc := "57023", quantity := 20,
      category := "Keychain", location := "Front Counter",
      shelf_tracking := random_shelf_tracking now r0 d0 },
    { name := "iPhone 15 Case", upc := "88002", quantity := 20,
      category := "Accessory", location := "End Cap A",
      shelf_tracking := random_shelf_tracking now r1 d1 },
    { name := "Disney Princess Keychain", upc := "99011", quantity := 20,
      category := "Keychain", location := "Main Shelf",
      shelf_tracking := random_shelf_tracking now r2 d2 },
    { name := "Mandalorian Keychain", upc := "57089", quantity := 20,
      category := "Keychain", location := "Main Shelf",
      shelf_tracking := random_shelf_tracking now r3 d3 },
    { name := "LED Lanyard", upc := "44022", quantity := 20,
      category := "Accessory", location := "Rotating Rack",
      shelf_tracking := random_shelf_tracking now r4 d4 } ]

/-- The `for item, rng in zip(items_list, ...)` loop of `generate_store`:
purchase `qty` of each item in turn, keeping the mutated items.  A failing
purchase propagates, as the Python exception would. -/
def simulateSales (now : Int) :
    List (StoreItem × Int × String) → Except String (List StoreItem)
  | [] => .ok []
  | (item, qty, uuid) :: rest => do
    let (_, item') ← item.purchase uuid now qty
    let rest' ← simulateSales now rest
    .ok (item' :: rest')

/-- `generate_store`: build the five items, then simulate one `purchase` per
item with quantity `qᵢ` (the `random.randint(*rng)` draw of item `i`) and
uuid `uᵢ`. -/
def generate_store (now : Int)
    (r0 d0 r1 d1 r2 d2 r3 d3 r4 d4 : Int)
    (q0 q1 q2 q3 q4 : Int) (u0 u1 u2 u3 u4 : String) :
    Except String (List StoreItem) :=
  simulateSales now
    ((initialItems now r0 d0 r1 d1 r2 d2 r3 d3 r4 d4).zip
      [(q0, u0), (q1, u1), (q2, u2), (q3, u3), (q4, u4)])

/-- One user action on a single item, with the nondeterministic inputs
(`uuid`, `now`, chosen quantity) made explicit. -/
inductive Op where
  | purchaseOp (uuid : String) (now : Int) (qty : Int)
  | returnOp (uuid : String) (now : Int) (qty : Int)
  | replenishOp (uuid : String) (now : Int) (qty : Int)
  | advanceDayOp
deriving DecidableEq

/-- Apply one operation to an item; a failing purchase leaves the item
unchanged (the dashboard catches the exception and mutates nothing). -/
def applyOp (item : StoreItem) : Op → StoreItem
  | .purchaseOp u n q =>
    match item.purchase u n q with
    | .ok (_, item') => item'
    | .error _ => item
  | .returnOp u n q => (item.return_item u n q).2
  | .replenishOp u n q => (item.replenish u n q).2
  | .advanceDayOp => item.advance_day

/-- Apply a sequence of operations in order. -/
def applyOps (item : StoreItem) (ops : List Op) : StoreItem :=
  ops.foldl applyOp item

/-- An operation is valid in a state when its quantity is at least 1 and, for
a purchase, at most the current stock (the spec's notion of a valid
operation). -/
def validOp (item : StoreItem) : Op → Bool
  | .purchaseOp _ _ q => 1 ≤ q && q ≤ item.quantity
  | .returnOp _ _ q => 1 ≤ q
  | .replenishOp _ _ q => 1 ≤ q
  | .advanceDayOp => true

/-- A whole sequence of operations is valid when each operation is valid in
the state the previous ones produced. -/
def validSeq (item : StoreItem) : List Op → Bool
  | [] => true
  | op :: ops => validOp item op && validSeq (applyOp item op) ops

/-- A concrete item used to instantiate theorems with hypotheses. -/
def wItem : StoreItem :=
  { name := "Baby Yoda Keychain"
    upc := "57023"
    quantity := 20
    category := "Keychain"
    location := "Front Counter"
    shelf_tracking :=
      { date_received := -(timedeltaDays 10), date_displayed := -(timedeltaDays 3) } }

/-- A concrete item with recorded sale durations, for witnesses. -/
def wItemSold : StoreItem := { wItem with sold_durations := [3, 4] }

/-- A purchase transaction of five units, for witnesses. -/
def wTxnP : Transaction :=
  { transaction_id := "t1", storeitem_name := "Baby Yoda Keychain",
    location := "Front Counter", quantity_change := -5, timestamp := 0,
    transaction_type := "purchase" }

/-- A return transaction of two units, for witnesses. -/
def wTxnR : Transaction :=
  { transaction_id := "t2", storeitem_name := "Baby Yoda Keychain",
    location := "Front Counter", quantity_change := 2, timestamp := 0,
    transaction_type := "return" }

/-- A replenish transaction of seven units, for witnesses. -/
def wTxnF : Transaction :=
  { transaction_id := "t3", storeitem_name := "Baby Yoda Keychain",
    location := "Front Counter", quantity_change := 7, timestamp := 0,
    transaction_type := "replenish" }

/-- A concrete item with a mixed transaction log, for witnesses. -/
def wItemLog : StoreItem := { wItem with transactions := [wTxnP, wTxnR, wTxnF] }

namespace StoreItem

theorem purchase_ok (item : StoreItem) (uuid : String) (now : Int) (qty : Int)
    (h : ¬ qty > item.quantity) :
    item.purchase uuid now qty =
      .ok
        ({ transaction_id := uuid
           storeitem_name := item.name
           location := item.location
           quantity_change := -qty
           timestamp := now
           transaction_type := "purchase" },
         { item with
             quantity := item.quantity - qty
             sold_durations := item.sold_durations ++
               List.replicate qty.toNat
                 (max 0 (daysBetween now item.shelf_tracking.date_displayed))
             transactions := item.transactions ++
               [{ transaction_id := uuid
                  storeitem_name := item.name
                  location := item.location
                  quantity_change := -qty
                  timestamp := now
                  transaction_type := "purchase" }] }) := by
  simp only [purchase, record_transaction, if_neg h]

theorem return_item_eq (item : StoreItem) (uuid : String) (now : Int) (qty : Int) :
    item.return_item uuid now qty =
      ({ transaction_id := uuid
         storeitem_name := item.name
         location := item.location
         quantity_change := qty
         timestamp := now
         transaction_type := "return" },
       { item with
           quantity := item.quantity + qty
           sold_durations := popLastN item.sold_durations
             (min qty.toNat item.sold_durations.length)
           transactions := item.transactions ++
             [{ transaction_id := uuid
                storeitem_name := item.name
                location := item.location
                quantity_change := qty
                timestamp := now
                transaction_type := "return" }] }) := by
  simp only [return_item, record_transaction]

theorem popLastN_eq_take (n : Nat) :
    ∀ l : List Int, n ≤ l.length → popLastN l n = l.take (l.length - n) := by
  induction n with
  | zero => intro l _; simp [popLastN]
  | succ n ih =>
    intro l h
    rw [popLastN, ih l.dropLast (by simp only [List.length_dropLast]; omega),
      List.dropLast_eq_take]
    simp only [List.length_take, List.take_take]
    congr 1
    omega

theorem mem_popLastN {d : Int} (n : Nat) :
    ∀ l : List Int, d ∈ popLastN l n → d ∈ l := by
  induction n with
  | zero => intro l h; exact h
  | succ n ih => intro l h; exact List.dropLast_subset _ (ih l.dropLast h)

end StoreItem

/-- C1: for every item and every `qty` with `1 ≤ qty ≤ quantity`, `purchase`
succeeds and computes `days_on_shelf = max 0` (whole days between `now` and
`date_displayed`), appends exactly `qty` copies of that value to
`sold_durations` (the replicate count `qty.toNat` equals `qty`), decrements
`quantity` by `qty`, appends exactly one transaction with
`quantity_change = -qty` and kind `"purchase"` to the log, and returns that
very transaction. -/
theorem purchase_effect_spec (item : StoreItem) (uuid : String) (now : Int)
    (qty : Int) (hlo : 1 ≤ qty) (hhi : qty ≤ item.quantity) :
    (qty.toNat : Int) = qty ∧
    item.purchase uuid now qty =
      .ok
        ({ transaction_id := uuid
           storeitem_name := item.name
           location := item.location
           quantity_change := -qty
           timestamp := now
           transaction_type := "purchase" },
         { item with
             quantity := item.quantity - qty
             sold_durations := item.sold_durations ++
               List.replicate qty.toNat
                 (max 0 (daysBetween now item.shelf_tracking.date_displayed))
             transactions := item.transactions ++
               [{ transaction_id := uuid
                  storeitem_name := item.name
                  location := item.location
                  quantity_change := -qty
                  timestamp := now
                  transaction_type := "purchase" }] }) :=
  ⟨Int.toNat_of_nonneg (by omega),
    StoreItem.purchase_ok item uuid now qty (not_lt.mpr hhi)⟩

theorem purchase_effect_spec_witness :
    ((5 : Int).toNat : Int) = 5 ∧
    wItem.purchase "uuid-1" 0 5 =
      .ok
        ({ transaction_id := "uuid-1"
           storeitem_name := wItem.name
           location := wItem.location
           quantity_change := -5
           timestamp := 0
           transaction_type := "purchase" },
         { wItem with
             quantity := wItem.quantity - 5
             sold_durations := wItem.sold_durations ++
               List.replicate (5 : Int).toNat
                 (max 0 (daysBetween 0 wItem.shelf_tracking.date_displayed))
             transactions := wItem.transactions ++
               [{ transaction_id := "uuid-1"
                  storeitem_name := wItem.name
                  location := wItem.location
                  quantity_change := -5
                  timestamp := 0
                  transaction_type := "purchase" }] }) :=
  purchase_effect_spec wItem "uuid-1" 0 5 (by decide) (by decide)

/-- C2: a purchase of more than the current stock fails with the
insufficient-inventory error; in this pure embedding the failing branch
returns only the error, so quantity, transaction log and `sold_durations`
are untouched — equivalently, the dashboard step `applyOp` leaves the item
exactly as it was. -/
theorem purchase_insufficient_spec (item : StoreItem) (uuid : String)
    (now : Int) (qty : Int) (h : item.quantity < qty) :
    item.purchase uuid now qty = .error "Not enough inventory to purchase" ∧
    applyOp item (Op.purchaseOp uuid now qty) = item := by
  have herr : item.purchase uuid now qty = .error "Not enough inventory to purchase" := by
    simp only [StoreItem.purchase, if_pos h]
  exact ⟨herr, by simp only [applyOp, herr]⟩

theorem purchase_insufficient_spec_witness :
    wItem.purchase "uuid-2" 0 25 = .error "Not enough inventory to purchase" ∧
    applyOp wItem (Op.purchaseOp "uuid-2" 0 25) = wItem :=
  purchase_insufficient_spec wItem "uuid-2" 0 25 (by decide)

/-- C3: for every item and every `qty ≥ 1`, `return_item` keeps exactly the
first `length - min qty length` entries of `sold_durations` (so exactly
`min qty length` entries are removed from the end, the most recently
appended first), increments `quantity` by the full `qty`, appends exactly
one transaction with `quantity_change = +qty` and kind `"return"`, and
returns that very transaction. -/
theorem return_effect_spec (item : StoreItem) (uuid : String) (now : Int)
    (qty : Int) (hlo : 1 ≤ qty) :
    (qty.toNat : Int) = qty ∧
    item.return_item uuid now qty =
      ({ transaction_id := uuid
         storeitem_name := item.name
         location := item.location
         quantity_change := qty
         timestamp := now
         transaction_type := "return" },
       { item with
           quantity := item.quantity + qty
           sold_durations := item.sold_durations.take
             (item.sold_durations.length - min qty.toNat item.sold_durations.length)
           transactions := item.transactions ++
             [{ transaction_id := uuid
                storeitem_name := item.name
                location := item.location
                quantity_change := qty
                timestamp := now
                transaction_type := "return" }] }) := by
  refine ⟨Int.toNat_of_nonneg (by omega), ?_⟩
  rw [StoreItem.return_item_eq,
    StoreItem.popLastN_eq_take _ _ (min_le_right _ _)]

theorem return_effect_spec_witness :
    ((3 : Int).toNat : Int) = 3 ∧
    wItem.return_item "uuid-3" 0 3 =
      ({ transaction_id := "uuid-3"
         storeitem_name := wItem.name
         location := wItem.location
         quantity_change := 3
         timestamp := 0
         transaction_type := "return" },
       { wItem with
           quantity := wItem.quantity + 3
           sold_durations := wItem.sold_durations.take
             (wItem.sold_durations.length - min (3 : Int).toNat
               wItem.sold_durations.length)
           transactions := wItem.transactions ++
             [{ transaction_id := "uuid-3"
                storeitem_name := wItem.name
                location := wItem.location
                quantity_change := 3
                timestamp := 0
                transaction_type := "return" }] }) :=
  return_effect_spec wItem "uuid-3" 0 3 (by decide)

/-- C7: a successful `purchase qty` followed immediately by
`return_item qty` restores `quantity` to its value before the purchase
(stated through the `Except` projection: whenever the purchase succeeds, the
quantity after the following return equals the original quantity). -/
theorem purchase_return_roundtrip_spec (item : StoreItem)
    (uuid1 uuid2 : String) (now1 now2 : Int) (qty : Int)
    (_hlo : 1 ≤ qty) (hhi : qty ≤ item.quantity) :
    ((item.purchase uuid1 now1 qty).toOption.map fun p =>
      (p.2.return_item uuid2 now2 qty).2.quantity) = some item.quantity := by
  rw [StoreItem.purchase_ok item uuid1 now1 qty (not_lt.mpr hhi)]
  simp only [Except.toOption, StoreItem.return_item_eq, Option.map_some']
  congr 1
  show item.quantity - qty + qty = item.quantity
  omega

theorem purchase_return_roundtrip_spec_witness :
    ((wItem.purchase "uuid-4" 0 5).toOption.map fun p =>
      (p.2.return_item "uuid-5" 0 5).2.quantity) = some wItem.quantity :=
  purchase_return_roundtrip_spec wItem "uuid-4" "uuid-5" 0 0 5 (by decide) (by decide)

theorem applyOp_quantity_nonneg (item : StoreItem) (op : Op)
    (h0 : 0 ≤ item.quantity) (hv : validOp item op = true) :
    0 ≤ (applyOp item op).quantity := by
  cases op with
  | purchaseOp u n q =>
    simp only [validOp, Bool.and_eq_true, decide_eq_true_eq] at hv
    rw [applyOp, StoreItem.purchase_ok item u n q (not_lt.mpr hv.2)]
    show 0 ≤ item.quantity - q
    omega
  | returnOp u n q =>
    simp only [validOp, decide_eq_true_eq] at hv
    rw [applyOp, StoreItem.return_item_eq]
    show 0 ≤ item.quantity + q
    omega
  | replenishOp u n q =>
    simp only [validOp, decide_eq_true_eq] at hv
    show 0 ≤ item.quantity + q
    omega
  | advanceDayOp => exact h0

/-- C4: `quantity` stays nonnegative along every valid sequence of
operations (purchases within stock, returns and replenishes of at least one
unit, day advances). -/
theorem quantity_nonneg_spec (item : StoreItem) (ops : List Op)
    (h0 : 0 ≤ item.quantity) (hv : validSeq item ops = true) :
    0 ≤ (applyOps item ops).quantity := by
  induction ops generalizing item with
  | nil => exact h0
  | cons op ops ih =>
    rw [validSeq, Bool.and_eq_true] at hv
    exact ih (applyOp item op) (applyOp_quantity_nonneg item op h0 hv.1) hv.2

theorem quantity_nonneg_spec_witness :
    0 ≤ (applyOps wItem
      [Op.purchaseOp "a" 0 20, Op.returnOp "b" 0 3, Op.advanceDayOp,
        Op.purchaseOp "c" 0 3, Op.replenishOp "d" 0 7]).quantity :=
  quantity_nonneg_spec wItem
    [Op.purchaseOp "a" 0 20, Op.returnOp "b" 0 3, Op.advanceDayOp,
      Op.purchaseOp "c" 0 3, Op.replenishOp "d" 0 7]
    (by decide) (by decide)

theorem applyOp_sold_durations_nonneg (item : StoreItem) (op : Op)
    (h0 : ∀ d ∈ item.sold_durations, 0 ≤ d) :
    ∀ d ∈ (applyOp item op).sold_durations, 0 ≤ d := by
  cases op with
  | purchaseOp u n q =>
    rw [applyOp]
    by_cases hq : q > item.quantity
    · simp only [StoreItem.purchase, if_pos hq]
      exact h0
    · rw [StoreItem.purchase_ok item u n q hq]
      show ∀ d ∈ item.sold_durations ++
        List.replicate q.toNat
          (max 0 (daysBetween n item.shelf_tracking.date_displayed)), 0 ≤ d
      intro d hd
      rcases List.mem_append.mp hd with hmem | hmem
      · exact h0 d hmem
      · rw [List.eq_of_mem_replicate hmem]
        exact le_max_left 0 _
  | returnOp u n q =>
    rw [applyOp, StoreItem.return_item_eq]
    show ∀ d ∈ StoreItem.popLastN item.sold_durations
      (min q.toNat item.sold_durations.length), 0 ≤ d
    intro d hd
    exact h0 d (StoreItem.mem_popLastN _ _ hd)
  | replenishOp u n q =>
    show ∀ d ∈ item.sold_durations, 0 ≤ d
    exact h0
  | advanceDayOp => exact h0

theorem average_nonneg_of_mem_nonneg (item : StoreItem)
    (h : ∀ d ∈ item.sold_durations, 0 ≤ d) :
    0 ≤ item.average_days_to_sell := by
  rw [StoreItem.average_days_to_sell]
  split
  · exact le_refl 0
  · refine div_nonneg ?_ (by positivity)
    have : (0 : Int) ≤ item.sold_durations.sum := List.sum_nonneg h
    exact_mod_cast this

/-- C10: starting from any state all of whose `sold_durations` entries are
nonnegative (in particular a fresh item, whose list is empty), every
reachable state again has only nonnegative entries — `purchase` appends
`max 0 _` and `return_item` only removes entries — and therefore
`average_days_to_sell` is nonnegative there. -/
theorem sold_durations_nonneg_spec (item : StoreItem) (ops : List Op)
    (h0 : ∀ d ∈ item.sold_durations, 0 ≤ d) :
    (∀ d ∈ (applyOps item ops).sold_durations, 0 ≤ d) ∧
    0 ≤ (applyOps item ops).average_days_to_sell := by
  have hmem : ∀ d ∈ (applyOps item ops).sold_durations, 0 ≤ d := by
    induction ops generalizing item with
    | nil => exact h0
    | cons op ops ih =>
      exact ih (applyOp item op) (applyOp_sold_durations_nonneg item op h0)
  exact ⟨hmem, average_nonneg_of_mem_nonneg _ hmem⟩

theorem sold_durations_nonneg_spec_witness :
    (∀ d ∈ (applyOps wItem
      [Op.purchaseOp "a" 0 6, Op.advanceDayOp, Op.purchaseOp "b" 0 2,
        Op.returnOp "c" 0 3]).sold_durations, 0 ≤ d) ∧
    0 ≤ (applyOps wItem
      [Op.purchaseOp "a" 0 6, Op.advanceDayOp, Op.purchaseOp "b" 0 2,
        Op.returnOp "c" 0 3]).average_days_to_sell :=
  sold_durations_nonneg_spec wItem
    [Op.purchaseOp "a" 0 6, Op.advanceDayOp, Op.purchaseOp "b" 0 2,
      Op.returnOp "c" 0 3]
    (by intro d hd; simp [wItem] at hd)

/-- C5: `average_days_to_sell` is `0` exactly on an empty `sold_durations`
(in particular on a freshly created item, whose list is empty), on a
nonempty list it is the arithmetic mean (`avg * length = sum`), and it is a
function of the item's current `sold_durations` alone — no cached value can
survive, since any two items with the same list agree. -/
theorem average_days_to_sell_spec (item : StoreItem) :
    (item.sold_durations = [] → item.average_days_to_sell = 0) ∧
    (item.sold_durations ≠ [] →
      item.average_days_to_sell * (item.sold_durations.length : Rat) =
        ((item.sold_durations.sum : Int) : Rat)) ∧
    (∀ other : StoreItem, other.sold_durations = item.sold_durations →
      other.average_days_to_sell = item.average_days_to_sell) := by
  refine ⟨?_, ?_, ?_⟩
  · intro h
    rw [StoreItem.average_days_to_sell, if_pos h]
  · intro h
    have h0 : item.sold_durations.length ≠ 0 := by
      simpa [List.length_eq_zero] using h
    have hl : (item.sold_durations.length : Rat) ≠ 0 := Nat.cast_ne_zero.mpr h0
    rw [StoreItem.average_days_to_sell, if_neg h, div_mul_cancel₀ _ hl]
  · intro other ho
    rw [StoreItem.average_days_to_sell, StoreItem.average_days_to_sell, ho]

theorem average_days_to_sell_spec_witness :
    wItemSold.average_days_to_sell * (wItemSold.sold_durations.length : Rat) =
      ((wItemSold.sold_durations.sum : Int) : Rat) :=
  (average_days_to_sell_spec wItemSold).2.1 (by decide)

theorem grossPurchases_eq_abs (item : StoreItem)
    (h : ∀ t ∈ item.transactions,
      t.transaction_type = "purchase" → t.quantity_change ≤ 0) :
    grossPurchases item =
      ((item.transactions.filter (fun t => t.transaction_type = "purchase")).map
        (fun t => |t.quantity_change|)).sum := by
  rw [grossPurchases]
  congr 1
  refine List.map_congr_left fun t ht => ?_
  rw [List.mem_filter] at ht
  have hp : t.transaction_type = "purchase" := by simpa using ht.2
  rw [abs_of_nonpos (h t ht.1 hp)]

theorem grossReturns_eq_abs (item : StoreItem)
    (h : ∀ t ∈ item.transactions,
      t.transaction_type = "return" → 0 ≤ t.quantity_change) :
    grossReturns item =
      ((item.transactions.filter (fun t => t.transaction_type = "return")).map
        (fun t => |t.quantity_change|)).sum := by
  rw [grossReturns]
  congr 1
  refine List.map_congr_left fun t ht => ?_
  rw [List.mem_filter] at ht
  have hp : t.transaction_type = "return" := by simpa using ht.2
  rw [abs_of_nonneg (h t ht.1 hp)]

/-- C6: for any collection whose purchase transactions have nonpositive
deltas and whose return transactions have nonnegative deltas (true of every
log the operations produce), `total_units_sold` equals the sum over all
items of the magnitudes of their purchase deltas minus the sum over all
items of the magnitudes of their return deltas; replenish transactions are
filtered out and contribute nothing. -/
theorem total_units_sold_spec (items : List StoreItem)
    (h : ∀ item ∈ items, ∀ t ∈ item.transactions,
      (t.transaction_type = "purchase" → t.quantity_change ≤ 0) ∧
      (t.transaction_type = "return" → 0 ≤ t.quantity_change)) :
    total_units_sold items =
      (items.map (fun i =>
        ((i.transactions.filter (fun t => t.transaction_type = "purchase")).map
          (fun t => |t.quantity_change|)).sum)).sum -
      (items.map (fun i =>
        ((i.transactions.filter (fun t => t.transaction_type = "return")).map
          (fun t => |t.quantity_change|)).sum)).sum := by
  rw [total_units_sold]
  congr 1
  · congr 1
    exact List.map_congr_left fun i hi =>
      grossPurchases_eq_abs i fun t ht hp => (h i hi t ht).1 hp
  · congr 1
    exact List.map_congr_left fun i hi =>
      grossReturns_eq_abs i fun t ht hp => (h i hi t ht).2 hp

theorem total_units_sold_spec_witness :
    total_units_sold [wItemLog] =
      ([wItemLog].map (fun i =>
        ((i.transactions.filter (fun t => t.transaction_type = "purchase")).map
          (fun t => |t.quantity_change|)).sum)).sum -
      ([wItemLog].map (fun i =>
        ((i.transactions.filter (fun t => t.transaction_type = "return")).map
          (fun t => |t.quantity_change|)).sum)).sum :=
  total_units_sold_spec [wItemLog] (by decide)

theorem foldl_best (key : String → Int) :
    ∀ (xs : List String) (x : String),
      (xs.foldl (fun best y => if key y > key best then y else best) x) ∈ x :: xs ∧
      ∀ y ∈ x :: xs,
        key y ≤ key (xs.foldl (fun best y => if key y > key best then y else best) x) := by
  intro xs
  induction xs with
  | nil =>
    intro x
    refine ⟨List.mem_cons_self x [], ?_⟩
    intro y hy
    rcases List.mem_cons.mp hy with rfl | hy
    · exact le_refl _
    · simp at hy
  | cons a as ih =>
    intro x
    rw [List.foldl_cons]
    obtain ⟨hmem, hle⟩ := ih (if key a > key x then a else x)
    have hzx : key x ≤ key (if key a > key x then a else x) := by
      by_cases h : key a > key x
      · rw [if_pos h]; exact le_of_lt h
      · rw [if_neg h]
    have hza : key a ≤ key (if key a > key x then a else x) := by
      by_cases h : key a > key x
      · rw [if_pos h]
      · rw [if_neg h]; exact le_of_not_lt h
    constructor
    · rcases List.mem_cons.mp hmem with heq | hmem2
      · rw [heq]
        by_cases h : key a > key x
        · rw [if_pos h]
          exact List.mem_cons_of_mem _ (List.mem_cons_self _ _)
        · rw [if_neg h]
          exact List.mem_cons_self _ _
      · exact List.mem_cons_of_mem _ (List.mem_cons_of_mem _ hmem2)
    · intro y hy
      have hz := hle _ (List.mem_cons_self _ _)
      rcases List.mem_cons.mp hy with rfl | hy2
      · exact le_trans hzx hz
      · rcases List.mem_cons.mp hy2 with rfl | hy3
        · exact le_trans hza hz
        · exact hle _ (List.mem_cons_of_mem _ hy3)

/-- C9: for a nonempty collection and any enumeration `locs` of the set of
distinct item locations, `best_location` returns a location that occurs
among the items and whose gross purchase volume is maximal over all item
locations (the enumeration order fixes which maximiser is kept when several
tie, and no stronger tie-break is guaranteed). -/
theorem best_location_spec (items : List StoreItem) (locs : List String)
    (hne : items ≠ [])
    (hlocs : ∀ l, l ∈ locs ↔ l ∈ items.map StoreItem.location) :
    ∃ b, best_location locs items = some b ∧
      b ∈ items.map StoreItem.location ∧
      ∀ l ∈ items.map StoreItem.location,
        locationPurchaseVolume items l ≤ locationPurchaseVolume items b := by
  cases hl : locs with
  | nil =>
    cases hi : items with
    | nil => exact absurd hi hne
    | cons i is =>
      have hmem : i.location ∈ items.map StoreItem.location := by
        rw [hi]
        exact List.mem_cons_self _ _
      have hloc := (hlocs i.location).mpr hmem
      rw [hl] at hloc
      simp at hloc
  | cons x xs =>
    obtain ⟨hmem, hle⟩ := foldl_best (locationPurchaseVolume items) xs x
    refine ⟨xs.foldl (fun best y =>
        if locationPurchaseVolume items y > locationPurchaseVolume items best
        then y else best) x, rfl, ?_, ?_⟩
    · exact (hlocs _).mp (hl ▸ hmem)
    · intro l hml
      exact hle l ((hl ▸ hlocs l).mpr hml)

theorem best_location_spec_witness :
    ∃ b, best_location ["Front Counter"] [wItemLog] = some b ∧
      b ∈ [wItemLog].map StoreItem.location ∧
      ∀ l ∈ [wItemLog].map StoreItem.location,
        locationPurchaseVolume [wItemLog] l ≤ locationPurchaseVolume [wItemLog] b :=
  best_location_spec [wItemLog] ["Front Counter"] (by simp) (fun _ => Iff.rfl)

/-- C8: under the ranges `random.randint` draws from (`rᵢ ∈ [8,12]`,
`dᵢ ∈ [1, rᵢ]`, `qᵢ` in the per-item seed range), the factory's five fresh
items all start with quantity 20, and the generated store has exactly 5
items with distinct names, each carrying exactly one synthetic `"purchase"`
transaction of its per-item seed quantity, and each with a `ShelfTracking`
whose `date_received` lies 8 to 12 whole days before `now`, whose
`date_displayed` lies at least 1 whole day before `now`, and whose
`date_displayed` never precedes `date_received`. -/
theorem generate_store_spec (now : Int)
    (r0 d0 r1 d1 r2 d2 r3 d3 r4 d4 q0 q1 q2 q3 q4 : Int)
    (u0 u1 u2 u3 u4 : String)
    (hr0 : 8 ≤ r0 ∧ r0 ≤ 12) (hd0 : 1 ≤ d0 ∧ d0 ≤ r0)
    (hr1 : 8 ≤ r1 ∧ r1 ≤ 12) (hd1 : 1 ≤ d1 ∧ d1 ≤ r1)
    (hr2 : 8 ≤ r2 ∧ r2 ≤ 12) (hd2 : 1 ≤ d2 ∧ d2 ≤ r2)
    (hr3 : 8 ≤ r3 ∧ r3 ≤ 12) (hd3 : 1 ≤ d3 ∧ d3 ≤ r3)
    (hr4 : 8 ≤ r4 ∧ r4 ≤ 12) (hd4 : 1 ≤ d4 ∧ d4 ≤ r4)
    (hq0 : 10 ≤ q0 ∧ q0 ≤ 15) (hq1 : 6 ≤ q1 ∧ q1 ≤ 10)
    (hq2 : 5 ≤ q2 ∧ q2 ≤ 9) (hq3 : 4 ≤ q3 ∧ q3 ≤ 8)
    (hq4 : 1 ≤ q4 ∧ q4 ≤ 5) :
    (initialItems now r0 d0 r1 d1 r2 d2 r3 d3 r4 d4).map StoreItem.quantity =
      [20, 20, 20, 20, 20] ∧
    ∃ store,
      generate_store now r0 d0 r1 d1 r2 d2 r3 d3 r4 d4 q0 q1 q2 q3 q4
        u0 u1 u2 u3 u4 = .ok store ∧
      store.length = 5 ∧
      store.map StoreItem.name = ["Baby Yoda Keychain", "iPhone 15 Case",
        "Disney Princess Keychain", "Mandalorian Keychain", "LED Lanyard"] ∧
      (store.map StoreItem.name).Nodup ∧
      store.map StoreItem.quantity = [20 - q0, 20 - q1, 20 - q2, 20 - q3, 20 - q4] ∧
      store.map (fun it => it.transactions.map fun t =>
          (t.quantity_change, t.transaction_type)) =
        [[(-q0, "purchase")], [(-q1, "purchase")], [(-q2, "purchase")],
          [(-q3, "purchase")], [(-q4, "purchase")]] ∧
      ∀ it ∈ store,
        timedeltaDays 8 ≤ now - it.shelf_tracking.date_received ∧
        now - it.shelf_tracking.date_received ≤ timedeltaDays 12 ∧
        timedeltaDays 1 ≤ now - it.shelf_tracking.date_displayed ∧
        it.shelf_tracking.date_received ≤ it.shelf_tracking.date_displayed := by
  have h0 : ¬ q0 > (20 : Int) := by omega
  have h1 : ¬ q1 > (20 : Int) := by omega
  have h2 : ¬ q2 > (20 : Int) := by omega
  have h3 : ¬ q3 > (20 : Int) := by omega
  have h4 : ¬ q4 > (20 : Int) := by omega
  have e : generate_store now r0 d0 r1 d1 r2 d2 r3 d3 r4 d4 q0 q1 q2 q3 q4
      u0 u1 u2 u3 u4 = .ok [
      { name := "Baby Yoda Keychain", upc := "57023", quantity := 20 - q0,
        category := "Keychain", location := "Front Counter",
        shelf_tracking := random_shelf_tracking now r0 d0,
        transactions :=
          [{ transaction_id := u0
             storeitem_name := "Baby Yoda Keychain"
             location := "Front Counter"
             quantity_change := -q0
             timestamp := now
             transaction_type := "purchase" }],
        sold_durations := List.replicate q0.toNat
          (max 0 (daysBetween now (random_shelf_tracking now r0 d0).date_displayed)) },
      { name := "iPhone 15 Case", upc := "88002", quantity := 20 - q1,
        category := "Accessory", location := "End Cap A",
        shelf_tracking := random_shelf_tracking now r1 d1,
        transactions :=
          [{ transaction_id := u1
             storeitem_name := "iPhone 15 Case"
             location := "End Cap A"
             quantity_change := -q1
             timestamp := now
             transaction_type := "purchase" }],
        sold_durations := List.replicate q1.toNat
          (max 0 (daysBetween now (random_shelf_tracking now r1 d1).date_displayed)) },
      { name := "Disney Princess Keychain", upc := "99011", quantity := 20 - q2,
        category := "Keychain", location := "Main Shelf",
        shelf_tracking := random_shelf_tracking now r2 d2,
        transactions :=
          [{ transaction_id := u2
             storeitem_name := "Disney Princess Keychain"
             location := "Main Shelf"
             quantity_change := -q2
             timestamp := now
             transaction_type := "purchase" }],
        sold_durations := List.replicate q2.toNat
          (max 0 (daysBetween now (random_shelf_tracking now r2 d2).date_displayed)) },
      { name := "Mandalorian Keychain", upc := "57089", quantity := 20 - q3,
        category := "Keychain", location := "Main Shelf",
        shelf_tracking := random_shelf_tracking now r3 d3,
        transactions :=
          [{ transaction_id := u3
             storeitem_name := "Mandalorian Keychain"
             location := "Main Shelf"
             quantity_change := -q3
             timestamp := now
             transaction_type := "purchase" }],
        sold_durations := List.replicate q3.toNat
          (max 0 (daysBetween now (random_shelf_tracking now r3 d3).date_displayed)) },
      { name := "LED Lanyard", upc := "44022", quantity := 20 - q4,
        category := "Accessory", location := "Rotating Rack",
        shelf_tracking := random_shelf_tracking now r4 d4,
        transactions :=
          [{ transaction_id := u4
             storeitem_name := "LED Lanyard"
             location := "Rotating Rack"
             quantity_change := -q4
             timestamp := now
             transaction_type := "purchase" }],
        sold_durations := List.replicate q4.toNat
          (max 0 (daysBetween now (random_shelf_tracking now r4 d4).date_displayed)) } ] := by
    simp only [generate_store, initialItems, List.zip_cons_cons, List.zip_nil_right,
      simulateSales, StoreItem.purchase, StoreItem.record_transaction, bind,
      Except.bind, if_neg h0, if_neg h1, if_neg h2, if_neg h3, if_neg h4,
      List.nil_append]
  refine ⟨rfl, _, e, rfl, rfl, ?_, rfl, rfl, ?_⟩
  · show (["Baby Yoda Keychain", "iPhone 15 Case", "Disney Princess Keychain",
      "Mandalorian Keychain", "LED Lanyard"] : List String).Nodup
    decide
  intro it hit
  simp only [List.mem_cons, List.not_mem_nil, or_false] at hit
  rcases hit with rfl | rfl | rfl | rfl | rfl <;>
    simp only [random_shelf_tracking, timedeltaDays, usPerDay] <;> omega

theorem generate_store_spec_witness :
    (initialItems 0 10 3 10 3 10 3 10 3 10 3).map StoreItem.quantity =
      [20, 20, 20, 20, 20] ∧
    ∃ store,
      generate_store 0 10 3 10 3 10 3 10 3 10 3 12 7 6 5 2
        "u0" "u1" "u2" "u3" "u4" = .ok store ∧
      store.length = 5 ∧
      store.map StoreItem.name = ["Baby Yoda Keychain", "iPhone 15 Case",
        "Disney Princess Keychain", "Mandalorian Keychain", "LED Lanyard"] ∧
      (store.map StoreItem.name).Nodup ∧
      store.map StoreItem.quantity =
        [20 - 12, 20 - 7, 20 - 6, 20 - 5, 20 - 2] ∧
      store.map (fun it => it.transactions.map fun t =>
          (t.quantity_change, t.transaction_type)) =
        [[(-12, "purchase")], [(-7, "purchase")], [(-6, "purchase")],
          [(-5, "purchase")], [(-2, "purchase")]] ∧
      ∀ it ∈ store,
        timedeltaDays 8 ≤ 0 - it.shelf_tracking.date_received ∧
        0 - it.shelf_tracking.date_received ≤ timedeltaDays 12 ∧
        timedeltaDays 1 ≤ 0 - it.shelf_tracking.date_displayed ∧
        it.shelf_tracking.date_received ≤ it.shelf_tracking.date_displayed :=
  generate_store_spec 0 10 3 10 3 10 3 10 3 10 3 12 7 6 5 2
    "u0" "u1" "u2" "u3" "u4"
    (by decide) (by decide) (by decide) (by decide) (by decide)
    (by decide) (by decide) (by decide) (by decide) (by decide)
    (by decide) (by decide) (by decide) (by decide) (by decide)
